import Mathlib

/-!
Verification development for the Polymarket top-holder PNL imbalance scanner.

Shallow embedding of the scanner's core functions, translated from the
Python sources:
  src/analysis/imbalance_calculator.py
  src/fetchers/market_fetcher.py
  src/fetchers/holder_fetcher.py
  src/scripts/resolve_markets.py
  src/db/repository.py

Python floats are modelled as rationals; Python None is modelled with
Option; Python truthiness of strings and numbers is modelled explicitly
where the source relies on it.
-/

namespace PolyScanner

/-- One holder of YES or NO tokens in a market (models MarketHolder from
src/models/holder.py; the side is the HolderSide enum). -/
inductive HolderSide where
  | YES : HolderSide
  | NO : HolderSide
deriving DecidableEq, Repr

/-- A holder row after parsing (models the MarketHolder dataclass from
src/models/holder.py).  Python float becomes the rationals, Optional
fields become Option. -/
structure MarketHolder where
  wallet_address : String
  amount : ℚ
  side : HolderSide
  username : Option String := none
  display_name : Option String := none
  overall_pnl : Option ℚ := none
  realized_pnl : Option ℚ := none
  pnl_30d : Option ℚ := none
  is_on_leaderboard : Bool := false
deriving DecidableEq, Repr

/-- Per-side rollup (models the SideAnalysis dataclass from
src/models/scan_result.py). -/
structure SideAnalysis where
  side : String
  total_holders : Nat
  top_n_count : Nat
  top_50_pct_count : Nat
  profitable_count : Nat
  losing_count : Nat
  unknown_count : Nat
  profitable_pct : ℚ
  unknown_pct : ℚ
  avg_overall_pnl : Option ℚ
  avg_realized_pnl : Option ℚ := none
  avg_30d_pnl : Option ℚ := none
  total_position_size : ℚ := 0
  data_quality_score : ℚ := 0
deriving DecidableEq, Repr

/-- TOP_HOLDER_PERCENT from src/config/settings.py. -/
def TOP_HOLDER_PERCENT : ℚ := 1/2

/-- IMBALANCE_THRESHOLD from src/config/settings.py. -/
def IMBALANCE_THRESHOLD : ℚ := 60/100

/-- The top-50-percent-by-balance loop of analyze_side: walk the holder
list accumulating amounts and counting, stopping as soon as the running
total reaches the target. -/
def top50Count (target : ℚ) : List MarketHolder → ℚ → Nat → Nat
  | [], _, count => count
  | h :: rest, cumulative, count =>
    let cumulative' := cumulative + h.amount
    let count' := count + 1
    if target ≤ cumulative' then count' else top50Count target rest cumulative' count'

/-- ImbalanceCalculator._calculate_data_quality from
src/analysis/imbalance_calculator.py. -/
def calculate_data_quality (known_count total_analyzed : Nat)
    (avg_overall avg_realized : Option ℚ) : ℚ :=
  if total_analyzed = 0 then 0
  else
    let known_ratio : ℚ := (known_count : ℚ) / (total_analyzed : ℚ)
    let score1 : ℚ := known_ratio * 50
    let score2 : ℚ := min ((total_analyzed : ℚ) / 20) 1 * 30
    let score3 : ℚ :=
      match avg_overall, avg_realized with
      | some ao, some ar =>
        if (0 < ao ∧ 0 < ar) ∨ (ao ≤ 0 ∧ ar ≤ 0) then 20
        else if |ar| < 1000 then 15 else 5
      | some _, none => 10
      | none, _ => 0
    min (score1 + score2 + score3) 100

/-- Predicate for the profitable list comprehension in analyze_side:
h.overall_pnl is not None and h.overall_pnl > 0. -/
def isProfitableHolder (h : MarketHolder) : Bool :=
  match h.overall_pnl with
  | some p => decide (0 < p)
  | none => false

/-- Predicate for the losing list comprehension in analyze_side:
h.overall_pnl is not None and h.overall_pnl <= 0. -/
def isLosingHolder (h : MarketHolder) : Bool :=
  match h.overall_pnl with
  | some p => decide (p ≤ 0)
  | none => false

/-- Predicate for the unknown list comprehension in analyze_side:
h.overall_pnl is None. -/
def isUnknownHolder (h : MarketHolder) : Bool :=
  h.overall_pnl.isNone

/-- ImbalanceCalculator.analyze_side from
src/analysis/imbalance_calculator.py.  The empty-list branch returns the
dataclass defaults for the fields it does not pass explicitly. -/
def analyze_side (holders : List MarketHolder) (side_name : String) : SideAnalysis :=
  if holders.length = 0 then
    { side := side_name
      total_holders := 0
      top_n_count := 0
      top_50_pct_count := 0
      profitable_count := 0
      losing_count := 0
      unknown_count := 0
      profitable_pct := 0
      unknown_pct := 1
      avg_overall_pnl := none
      avg_realized_pnl := none
      avg_30d_pnl := none
      total_position_size := 0
      data_quality_score := 0 }
  else
    let total_balance : ℚ := (holders.map (·.amount)).sum
    let top_50 := top50Count (total_balance * TOP_HOLDER_PERCENT) holders 0 0
    let profitable := holders.filter isProfitableHolder
    let losing := holders.filter isLosingHolder
    let unknown := holders.filter isUnknownHolder
    let known_count := profitable.length + losing.length
    let profitable_pct : ℚ :=
      if 0 < known_count then (profitable.length : ℚ) / (known_count : ℚ) else 0
    let unknown_pct : ℚ := (unknown.length : ℚ) / (holders.length : ℚ)
    let overall_pnls := holders.filterMap (·.overall_pnl)
    let realized_pnls := holders.filterMap (·.realized_pnl)
    let pnl_30ds := holders.filterMap (·.pnl_30d)
    let avg_overall : Option ℚ :=
      if overall_pnls.length ≠ 0 then some (overall_pnls.sum / (overall_pnls.length : ℚ)) else none
    let avg_realized : Option ℚ :=
      if realized_pnls.length ≠ 0 then some (realized_pnls.sum / (realized_pnls.length : ℚ)) else none
    let avg_30d : Option ℚ :=
      if pnl_30ds.length ≠ 0 then some (pnl_30ds.sum / (pnl_30ds.length : ℚ)) else none
    let total_position : ℚ := (holders.map (·.amount)).sum
    { side := side_name
      total_holders := holders.length
      top_n_count := holders.length
      top_50_pct_count := top_50
      profitable_count := profitable.length
      losing_count := losing.length
      unknown_count := unknown.length
      profitable_pct := profitable_pct
      unknown_pct := unknown_pct
      avg_overall_pnl := avg_overall
      avg_realized_pnl := avg_realized
      avg_30d_pnl := avg_30d
      total_position_size := total_position
      data_quality_score :=
        calculate_data_quality known_count holders.length avg_overall avg_realized }

/-- The nested calc_score function of
ImbalanceCalculator.calculate_imbalance. -/
def calc_score (winning_pct losing_pct winning_pnl : ℚ) : ℚ :=
  let base := winning_pct * 100
  let diff_bonus := (winning_pct - losing_pct) * 50
  let pnl_bonus : ℚ :=
    if 50000 < winning_pnl then 10
    else if 10000 < winning_pnl then 5
    else 0
  min (base + diff_bonus + pnl_bonus) 100

/-- The guard of the YES branch of calculate_imbalance: yes_pct at or
above the threshold, strictly above no_pct, positive YES average PNL,
strictly above the NO average PNL.  The averages substitute 0 for None,
as the Python computes them with (x or 0). -/
def yesFlagGuard (threshold : ℚ) (yes_analysis no_analysis : SideAnalysis) : Bool :=
  let yes_pct := yes_analysis.profitable_pct
  let no_pct := no_analysis.profitable_pct
  let yes_avg_pnl := yes_analysis.avg_overall_pnl.getD 0
  let no_avg_pnl := no_analysis.avg_overall_pnl.getD 0
  decide (threshold ≤ yes_pct) && decide (no_pct < yes_pct) &&
    decide (0 < yes_avg_pnl) && decide (no_avg_pnl < yes_avg_pnl)

/-- The guard of the NO branch (elif) of calculate_imbalance. -/
def noFlagGuard (threshold : ℚ) (yes_analysis no_analysis : SideAnalysis) : Bool :=
  let yes_pct := yes_analysis.profitable_pct
  let no_pct := no_analysis.profitable_pct
  let yes_avg_pnl := yes_analysis.avg_overall_pnl.getD 0
  let no_avg_pnl := no_analysis.avg_overall_pnl.getD 0
  decide (threshold ≤ no_pct) && decide (yes_pct < no_pct) &&
    decide (0 < no_avg_pnl) && decide (yes_avg_pnl < no_avg_pnl)

/-- ImbalanceCalculator.calculate_imbalance from
src/analysis/imbalance_calculator.py; returns
(yes_pct, no_pct, is_flagged, flagged_side, imbalance_score). -/
def calculate_imbalance (threshold : ℚ) (yes_analysis no_analysis : SideAnalysis) :
    ℚ × ℚ × Bool × Option String × ℚ :=
  let yes_pct := yes_analysis.profitable_pct
  let no_pct := no_analysis.profitable_pct
  let yes_avg_pnl := yes_analysis.avg_overall_pnl.getD 0
  let no_avg_pnl := no_analysis.avg_overall_pnl.getD 0
  if yesFlagGuard threshold yes_analysis no_analysis then
    (yes_pct, no_pct, true, some "YES", calc_score yes_pct no_pct yes_avg_pnl)
  else if noFlagGuard threshold yes_analysis no_analysis then
    (yes_pct, no_pct, true, some "NO", calc_score no_pct yes_pct no_avg_pnl)
  else
    (yes_pct, no_pct, false, none, 0)

/-- The flagged side reported by calculate_imbalance. -/
def flaggedSideOf (threshold : ℚ) (yes_analysis no_analysis : SideAnalysis) : Option String :=
  (calculate_imbalance threshold yes_analysis no_analysis).2.2.2.1

/-- Claim C1: calculate_imbalance flags at most one side: the YES-branch
guard and the NO-branch guard can never hold together (their strict
profitable-fraction and average-PNL comparisons are mutually exclusive),
and the flagged side is some YES only when the YES guard holds, some NO
only when the NO guard holds and the YES guard does not, and none
otherwise. -/
theorem C1_flags_at_most_one_side (threshold : ℚ) (yes_analysis no_analysis : SideAnalysis) :
    (yesFlagGuard threshold yes_analysis no_analysis &&
      noFlagGuard threshold yes_analysis no_analysis) = false ∧
    flaggedSideOf threshold yes_analysis no_analysis =
      (if yesFlagGuard threshold yes_analysis no_analysis then some "YES"
       else if noFlagGuard threshold yes_analysis no_analysis then some "NO"
       else none) := by
  constructor
  · by_cases hy : yesFlagGuard threshold yes_analysis no_analysis
    · have hno : noFlagGuard threshold yes_analysis no_analysis = false := by
        simp only [yesFlagGuard, Bool.and_eq_true, decide_eq_true_eq] at hy
        simp only [noFlagGuard, Bool.and_eq_false_iff, decide_eq_false_iff_not, not_lt]
        exact Or.inl (Or.inl (Or.inr (le_of_lt hy.1.1.2)))
      simp [hno]
    · simp [Bool.eq_false_iff.mpr hy]
  · by_cases hy : yesFlagGuard threshold yes_analysis no_analysis
    · simp [flaggedSideOf, calculate_imbalance, hy]
    · by_cases hn : noFlagGuard threshold yes_analysis no_analysis
      · simp [flaggedSideOf, calculate_imbalance, hy, hn]
      · simp [flaggedSideOf, calculate_imbalance, hy, hn]

/-- The three PNL-status list comprehensions of analyze_side partition
the holder list: every holder is exactly one of profitable, losing,
unknown. -/
theorem holder_status_partition (l : List MarketHolder) :
    (l.filter isProfitableHolder).length + (l.filter isLosingHolder).length +
      (l.filter isUnknownHolder).length = l.length := by
  induction l with
  | nil => rfl
  | cons h t ih =>
    rcases hpnl : h.overall_pnl with _ | p
    · have e1 : isProfitableHolder h = false := by simp [isProfitableHolder, hpnl]
      have e2 : isLosingHolder h = false := by simp [isLosingHolder, hpnl]
      have e3 : isUnknownHolder h = true := by simp [isUnknownHolder, hpnl]
      simp only [List.filter_cons, e1, e2, e3, if_neg, if_pos, Bool.false_eq_true,
        ite_false, ite_true, List.length_cons]
      omega
    · have e3 : isUnknownHolder h = false := by simp [isUnknownHolder, hpnl]
      rcases le_or_lt p 0 with hle | hlt
      · have e1 : isProfitableHolder h = false := by
          simp only [isProfitableHolder, hpnl, decide_eq_false_iff_not, not_lt]
          exact hle
        have e2 : isLosingHolder h = true := by
          simp only [isLosingHolder, hpnl, decide_eq_true_eq]
          exact hle
        simp only [List.filter_cons, e1, e2, e3, Bool.false_eq_true, ite_false,
          ite_true, List.length_cons]
        omega
      · have e1 : isProfitableHolder h = true := by
          simp only [isProfitableHolder, hpnl, decide_eq_true_eq]
          exact hlt
        have e2 : isLosingHolder h = false := by
          simp only [isLosingHolder, hpnl, decide_eq_false_iff_not, not_le]
          exact hlt
        simp only [List.filter_cons, e1, e2, e3, Bool.false_eq_true, ite_false,
          ite_true, List.length_cons]
        omega

/-- Claim C2: for every holder list and side name the SideAnalysis
returned by analyze_side has profitable, losing and unknown counts
summing to top_n_count, profitable_pct and unknown_pct between 0 and 1,
profitable_pct equal to 0 when no holder has a known PNL, and
unknown_pct equal to 1 on the empty list. -/
theorem C2_analyze_side_invariants (holders : List MarketHolder) (side_name : String) :
    (analyze_side holders side_name).profitable_count +
        (analyze_side holders side_name).losing_count +
        (analyze_side holders side_name).unknown_count =
      (analyze_side holders side_name).top_n_count ∧
    0 ≤ (analyze_side holders side_name).profitable_pct ∧
    (analyze_side holders side_name).profitable_pct ≤ 1 ∧
    0 ≤ (analyze_side holders side_name).unknown_pct ∧
    (analyze_side holders side_name).unknown_pct ≤ 1 ∧
    ((∀ h ∈ holders, h.overall_pnl = none) →
      (analyze_side holders side_name).profitable_pct = 0) ∧
    (holders = [] → (analyze_side holders side_name).unknown_pct = 1) := by
  by_cases h0 : holders.length = 0
  · simp [analyze_side, h0]
  · have hlen : (0:ℚ) < (holders.length : ℚ) := by
      exact_mod_cast Nat.pos_of_ne_zero h0
    simp only [analyze_side, h0, if_false, ite_false]
    refine ⟨holder_status_partition holders, ?_, ?_, ?_, ?_, ?_, ?_⟩
    · by_cases hk : 0 < (holders.filter isProfitableHolder).length +
          (holders.filter isLosingHolder).length
      · simp only [hk, if_pos, ite_true]
        positivity
      · simp [hk]
    · by_cases hk : 0 < (holders.filter isProfitableHolder).length +
          (holders.filter isLosingHolder).length
      · simp only [hk, if_pos, ite_true]
        rw [div_le_one (by exact_mod_cast hk)]
        exact_mod_cast Nat.le_add_right _ _
      · simp [hk]
    · positivity
    · rw [div_le_one hlen]
      exact_mod_cast List.length_filter_le _ _
    · intro hall
      have hp : holders.filter isProfitableHolder = [] := by
        refine List.filter_eq_nil_iff.mpr ?_
        intro h hm
        simp [isProfitableHolder, hall h hm]
      have hl : holders.filter isLosingHolder = [] := by
        refine List.filter_eq_nil_iff.mpr ?_
        intro h hm
        simp [isLosingHolder, hall h hm]
      simp [hp, hl]
    · intro he
      exact absurd (by simp [he]) h0

/-- Witness for claim C2 at concrete inputs: the empty YES side has
unknown_pct 1 and profitable_pct 0. -/
theorem C2_witness :
    (analyze_side [] "YES").unknown_pct = 1 ∧ (analyze_side [] "YES").profitable_pct = 0 := by
  have h := C2_analyze_side_invariants [] "YES"
  exact ⟨h.2.2.2.2.2.2 rfl, h.2.2.2.2.2.1 (by simp)⟩

/-- Counterexample to claim C3: on winning_pct 0.80, losing_pct 0.55 and
winning PNL 60000 the score is not 92.5, because the capped sum is
min (80 + 12.5 + 10) 100 = 100. -/
theorem C3_counterexample : calc_score (80/100) (55/100) 60000 ≠ 925/10 := by
  norm_num [calc_score]

/-- Claim C3 (amended): for winning_pct 0.80, losing_pct 0.55 and winning
PNL 60000, base is 80, diff_bonus is 12.5 and pnl_bonus is 10, so the
score is min 102.5 100 = 100 (not 92.5: the sum exceeds the cap). -/
theorem C3_amended_score_is_capped : calc_score (80/100) (55/100) 60000 = 100 := by
  norm_num [calc_score]

/-- A YES holder for the C4 scenario: share amount 100 with the given
cash PNL. -/
def c4YesHolder (pnl : ℚ) : MarketHolder :=
  { wallet_address := "w", amount := 100, side := HolderSide.YES, overall_pnl := some pnl }

/-- A NO holder for the C4 scenario. -/
def c4NoHolder (pnl : ℚ) : MarketHolder :=
  { wallet_address := "w", amount := 100, side := HolderSide.NO, overall_pnl := some pnl }

/-- The C4 YES side: 7 profitable and 1 losing holder averaging 20000. -/
def c4YesHolders : List MarketHolder :=
  [c4YesHolder 25000, c4YesHolder 25000, c4YesHolder 25000, c4YesHolder 25000,
   c4YesHolder 25000, c4YesHolder 25000, c4YesHolder 25000, c4YesHolder (-15000)]

/-- The C4 NO side: 3 profitable and 5 losing holders averaging -2000. -/
def c4NoHolders : List MarketHolder :=
  [c4NoHolder 1000, c4NoHolder 1000, c4NoHolder 1000, c4NoHolder (-3800),
   c4NoHolder (-3800), c4NoHolder (-3800), c4NoHolder (-3800), c4NoHolder (-3800)]

/-- Claim C4: on a YES side with 7 profitable, 1 losing, 0 unknown
holders (fraction 0.875) averaging 20000 against a NO side with 3
profitable, 5 losing, 0 unknown (fraction 0.375) averaging -2000,
calculate_imbalance at the default threshold 0.60 flags YES with score
min (87.5 + 25 + 5) 100 = 100. -/
theorem C4_scenario_flags_yes_with_score_100 :
    calculate_imbalance IMBALANCE_THRESHOLD
        (analyze_side c4YesHolders "YES") (analyze_side c4NoHolders "NO") =
      (7/8, 3/8, true, some "YES", 100) := by
  have hyes : analyze_side c4YesHolders "YES" =
      { side := "YES", total_holders := 8, top_n_count := 8, top_50_pct_count := 4,
        profitable_count := 7, losing_count := 1, unknown_count := 0,
        profitable_pct := 7/8, unknown_pct := 0, avg_overall_pnl := some 20000,
        avg_realized_pnl := none, avg_30d_pnl := none, total_position_size := 800,
        data_quality_score := 72 } := by
    norm_num [analyze_side, c4YesHolders, c4YesHolder, isProfitableHolder,
      isLosingHolder, isUnknownHolder, List.filter, List.filterMap, top50Count,
      TOP_HOLDER_PERCENT, calculate_data_quality]
  have hno : analyze_side c4NoHolders "NO" =
      { side := "NO", total_holders := 8, top_n_count := 8, top_50_pct_count := 4,
        profitable_count := 3, losing_count := 5, unknown_count := 0,
        profitable_pct := 3/8, unknown_pct := 0, avg_overall_pnl := some (-2000),
        avg_realized_pnl := none, avg_30d_pnl := none, total_position_size := 800,
        data_quality_score := 72 } := by
    norm_num [analyze_side, c4NoHolders, c4NoHolder, isProfitableHolder,
      isLosingHolder, isUnknownHolder, List.filter, List.filterMap, top50Count,
      TOP_HOLDER_PERCENT, calculate_data_quality]
  rw [hyes, hno]
  have hguard : yesFlagGuard IMBALANCE_THRESHOLD
      { side := "YES", total_holders := 8, top_n_count := 8, top_50_pct_count := 4,
        profitable_count := 7, losing_count := 1, unknown_count := 0,
        profitable_pct := 7/8, unknown_pct := 0, avg_overall_pnl := some 20000,
        avg_realized_pnl := none, avg_30d_pnl := none, total_position_size := 800,
        data_quality_score := 72 }
      { side := "NO", total_holders := 8, top_n_count := 8, top_50_pct_count := 4,
        profitable_count := 3, losing_count := 5, unknown_count := 0,
        profitable_pct := 3/8, unknown_pct := 0, avg_overall_pnl := some (-2000),
        avg_realized_pnl := none, avg_30d_pnl := none, total_position_size := 800,
        data_quality_score := 72 } = true := by
    simp only [yesFlagGuard, Bool.and_eq_true, decide_eq_true_eq, IMBALANCE_THRESHOLD]
    norm_num
  simp only [calculate_imbalance, hguard, if_true, ite_true]
  norm_num [calc_score]

/-- A raw event object attached to a raw market record (the first entry
of raw["events"] is consulted for slug and category). -/
structure RawEvent where
  slug : Option String := none
  category : Option String := none
deriving DecidableEq, Repr

/-- A raw market record from the listing endpoint, after JSON decoding.
outcomePrices entries are Option rationals: none models an entry that
float() cannot parse (which raises and aborts the parse); a short or
empty list models absent prices.  endDate models the already-parsed
end timestamp in seconds; a missing or unparsable date string is none,
matching the try/except that leaves end_date as None. -/
structure RawMarket where
  id : String := ""
  question : String := ""
  slug : String := ""
  outcomes : List String := []
  clobTokenIds : List String := []
  outcomePrices : List (Option ℚ) := []
  conditionId : String := ""
  endDate : Option Int := none
  events : List RawEvent := []
  category : Option String := none
  volumeNum : Option ℚ := none
  liquidityNum : Option ℚ := none
deriving DecidableEq, Repr

/-- A normalized market (models the ActiveMarket dataclass from
src/models/market.py, restricted to the fields parse_market sets). -/
structure ActiveMarket where
  market_id : String
  condition_id : String
  question : String
  slug : String
  token_id_yes : String
  token_id_no : String
  volume : ℚ
  liquidity : ℚ
  yes_price : ℚ
  no_price : ℚ
  end_date : Option Int
  category : Option String
deriving DecidableEq, Repr

/-- Python truthiness of an optional string: None and the empty string
are falsy. -/
def pyTruthyStr : Option String → Bool
  | some s => decide (s ≠ "")
  | none => false

/-- Python (a or b) on optional strings. -/
def pyOrStr (a b : Option String) : Option String :=
  if pyTruthyStr a then a else b

/-- ActiveMarketFetcher.parse_market from src/fetchers/market_fetcher.py.
The clock now (seconds) replaces datetime.now(); max_days_to_expiry is
the fetcher's optional configuration (Python treats both None and 0 as
absent). -/
def parse_market (now : Int) (max_days_to_expiry : Option Nat) (raw : RawMarket) :
    Option ActiveMarket :=
  if raw.outcomes.length < 2 ∨ raw.clobTokenIds.length < 2 then none
  else
    let token_yes := raw.clobTokenIds.getD 0 ""
    let token_no := raw.clobTokenIds.getD 1 ""
    if token_yes = "" ∨ token_no = "" then none
    else
      let yes_price_opt : Option ℚ :=
        match raw.outcomePrices.get? 0 with
        | some none => none
        | some (some v) => some v
        | none => some (1/2)
      let no_price_opt : Option ℚ :=
        match raw.outcomePrices.get? 1 with
        | some none => none
        | some (some v) => some v
        | none => some (1/2)
      match yes_price_opt, no_price_opt with
      | some yes_price, some no_price =>
        if raw.conditionId = "" then none
        else
          let expired : Bool :=
            match raw.endDate with
            | some d => decide (d < now)
            | none => false
          if expired then none
          else
            let tooFarOut : Bool :=
              match raw.endDate, max_days_to_expiry with
              | some d, some m => decide (m ≠ 0) && decide ((m : Int) * 24 * 3600 < d - now)
              | _, _ => false
            if tooFarOut then none
            else
              let slug :=
                match raw.events.head? with
                | some ev => if pyTruthyStr ev.slug then ev.slug.getD "" else raw.slug
                | none => raw.slug
              let category :=
                match raw.events.head? with
                | some ev => if pyTruthyStr ev.category then ev.category else raw.category
                | none => raw.category
              some
                { market_id := raw.id
                  condition_id := raw.conditionId
                  question := raw.question
                  slug := slug
                  token_id_yes := token_yes
                  token_id_no := token_no
                  volume := raw.volumeNum.getD 0
                  liquidity := raw.liquidityNum.getD 0
                  yes_price := yes_price
                  no_price := no_price
                  end_date := raw.endDate
                  category := category }
      | _, _ => none

/-- Counterexample to claim C5: a record with two outcome tokens and a
non-empty condition id whose outcomePrices list is empty (fails to
provide two outcome prices) is NOT dropped: both prices default to 0.5
and a Market is returned. -/
theorem C5_counterexample :
    parse_market 0 none
      { id := "1", question := "q", slug := "s",
        outcomes := ["Yes", "No"], clobTokenIds := ["ty", "tn"],
        outcomePrices := [], conditionId := "0xc" } =
      some
        { market_id := "1", condition_id := "0xc", question := "q", slug := "s",
          token_id_yes := "ty", token_id_no := "tn", volume := 0, liquidity := 0,
          yes_price := 1/2, no_price := 1/2, end_date := none, category := none } := by
  simp [parse_market, pyTruthyStr]

/-- Claim C5 (amended): parse_market silently yields no Market whenever
the record fails to provide two outcome tokens (fewer than two outcomes
or token ids, or an empty token id), or has an empty condition id, or
has an unparsable provided outcome-price entry; a record that merely
omits outcome prices is not dropped, the prices default to 0.5. -/
theorem C5_amended_parse_market_drops (now : Int) (mdays : Option Nat) (raw : RawMarket)
    (h : raw.outcomes.length < 2 ∨ raw.clobTokenIds.length < 2 ∨
      raw.clobTokenIds.getD 0 "" = "" ∨ raw.clobTokenIds.getD 1 "" = "" ∨
      raw.conditionId = "" ∨
      raw.outcomePrices.get? 0 = some none ∨ raw.outcomePrices.get? 1 = some none) :
    parse_market now mdays raw = none := by
  simp only [parse_market]
  by_cases h2 : raw.outcomes.length < 2 ∨ raw.clobTokenIds.length < 2
  · rw [if_pos h2]
  · rw [if_neg h2]
    by_cases h3 : raw.clobTokenIds.getD 0 "" = "" ∨ raw.clobTokenIds.getD 1 "" = ""
    · rw [if_pos h3]
    · rw [if_neg h3]
      have h4 : raw.conditionId = "" ∨ raw.outcomePrices.get? 0 = some none ∨
          raw.outcomePrices.get? 1 = some none := by
        rcases h with h | h | h | h | h | h | h
        · exact absurd (Or.inl h) h2
        · exact absurd (Or.inr h) h2
        · exact absurd (Or.inl h) h3
        · exact absurd (Or.inr h) h3
        · exact Or.inl h
        · exact Or.inr (Or.inl h)
        · exact Or.inr (Or.inr h)
      simp only [List.get?_eq_getElem?] at h4
      rcases h4 with h4 | h4 | h4
      · rcases hp0 : raw.outcomePrices[0]? with _ | _ | v0 <;>
          rcases hp1 : raw.outcomePrices[1]? with _ | _ | v1 <;>
            simp [hp0, hp1, h4]
      · rcases hp1 : raw.outcomePrices[1]? with _ | _ | v1 <;> simp [h4, hp1]
      · rcases hp0 : raw.outcomePrices[0]? with _ | _ | v0 <;> simp [h4, hp0]

/-- Witness for claim C5 (amended): a record with an empty condition id
parses to no Market. -/
theorem C5_amended_witness :
    parse_market 0 none
      { outcomes := ["Yes", "No"], clobTokenIds := ["ty", "tn"],
        outcomePrices := [some (6/10), some (4/10)], conditionId := "" } = none :=
  C5_amended_parse_market_drops 0 none _ (Or.inr (Or.inr (Or.inr (Or.inr (Or.inl rfl)))))

/-- The while-loop of fetch_all_active_markets.  The input pages model
the successive responses of fetch_markets_page at offsets 0, page_size,
2 * page_size, ...; when the list of pages is exhausted the API is
returning empty pages, which the loop treats as the end (break on empty).
Loop body, in source order: break on an empty page; append the parsed
markets of the page; break if the page was short; truncate to
max_markets and break if max_markets is truthy (Python: not None and
non-zero) and the accumulated count reached it; otherwise continue. -/
def fetchAllLoop (now : Int) (mdays : Option Nat) (page_size : Nat)
    (max_markets : Option Nat) : List (List RawMarket) → List ActiveMarket → List ActiveMarket
  | [], acc => acc
  | p :: rest, acc =>
    if p.length = 0 then acc
    else
      let acc' := acc ++ p.filterMap (parse_market now mdays)
      if p.length < page_size then acc'
      else
        match max_markets with
        | some m =>
          if m ≠ 0 ∧ m ≤ acc'.length then acc'.take m
          else fetchAllLoop now mdays page_size max_markets rest acc'
        | none => fetchAllLoop now mdays page_size max_markets rest acc'

/-- ActiveMarketFetcher.fetch_all_active_markets from
src/fetchers/market_fetcher.py. -/
def fetch_all_active_markets (now : Int) (mdays : Option Nat)
    (pages : List (List RawMarket)) (page_size : Nat) (max_markets : Option Nat) :
    List ActiveMarket :=
  fetchAllLoop now mdays page_size max_markets pages []

/-- A well-formed raw record every parse accepts, used to refute C6. -/
def c6Raw : RawMarket :=
  { id := "1", question := "q", slug := "s", outcomes := ["Yes", "No"],
    clobTokenIds := ["ty", "tn"], outcomePrices := [some (6/10), some (4/10)],
    conditionId := "0xc" }

/-- Counterexample to claim C6: with page_size 3 and max_markets 4, a
full first page of 3 parsed markets (3 < 4, so no truncation) followed
by a short page of 2 ends the loop through the short-page break, which
runs before the max_markets check, so 5 markets are returned: more than
max_markets. -/
theorem C6_counterexample :
    ¬ (fetch_all_active_markets 0 none [[c6Raw, c6Raw, c6Raw], [c6Raw, c6Raw]] 3
        (some 4)).length ≤ 4 := by
  have hp : parse_market 0 none c6Raw =
      some
        { market_id := "1", condition_id := "0xc", question := "q", slug := "s",
          token_id_yes := "ty", token_id_no := "tn", volume := 0, liquidity := 0,
          yes_price := 6/10, no_price := 4/10, end_date := none, category := none } := by
    simp [parse_market, c6Raw, pyTruthyStr]
  simp [fetch_all_active_markets, fetchAllLoop, hp, List.filterMap]

/-- Every page contributes at most its own length to the accumulator. -/
theorem fetchAllLoop_length_le (now : Int) (mdays : Option Nat) (page_size m : Nat)
    (hps : 1 ≤ page_size) (hm : 1 ≤ m) :
    ∀ (pages : List (List RawMarket)) (acc : List ActiveMarket),
      acc.length < m →
      (fetchAllLoop now mdays page_size (some m) pages acc).length ≤ m - 1 + page_size := by
  intro pages
  induction pages with
  | nil =>
    intro acc hacc
    simp only [fetchAllLoop]
    omega
  | cons p rest ih =>
    intro acc hacc
    simp only [fetchAllLoop]
    by_cases hempty : p.length = 0
    · rw [if_pos hempty]
      omega
    · rw [if_neg hempty]
      have hlenacc : (acc ++ p.filterMap (parse_market now mdays)).length ≤
          acc.length + p.length := by
        rw [List.length_append]
        exact Nat.add_le_add_left (List.length_filterMap_le _ _) _
      by_cases hshort : p.length < page_size
      · rw [if_pos hshort]
        omega
      · rw [if_neg hshort]
        by_cases htrunc : m ≠ 0 ∧ m ≤ (acc ++ p.filterMap (parse_market now mdays)).length
        · rw [if_pos htrunc]
          rw [List.length_take]
          omega
        · rw [if_neg htrunc]
          refine ih _ ?_
          have : ¬ m ≤ (acc ++ p.filterMap (parse_market now mdays)).length := by
            intro hle
            exact htrunc ⟨by omega, hle⟩
          omega

/-- Claim C6 (amended): when maxMarkets is provided (a positive value:
Python treats None and 0 as no limit) and the page size is positive,
fetch_all_active_markets stops paging as soon as the accumulated parsed
markets reach maxMarkets or a short or empty page is returned, and the
returned list has at most maxMarkets + pageSize - 1 markets; the bound
maxMarkets alone does not hold, because the short-page break runs before
the maxMarkets truncation and a final short page may overshoot. -/
theorem C6_amended_fetch_all_bound (now : Int) (mdays : Option Nat)
    (pages : List (List RawMarket)) (page_size m : Nat)
    (hps : 1 ≤ page_size) (hm : 1 ≤ m) :
    (fetch_all_active_markets now mdays pages page_size (some m)).length ≤
      m - 1 + page_size := by
  exact fetchAllLoop_length_le now mdays page_size m hps hm pages [] (by simpa using hm)

/-- Witness for claim C6 (amended): one full page of three markets with
maxMarkets 2 is truncated to 2 = 2 - 1 + 3 - 2 <= 2 - 1 + 3. -/
theorem C6_amended_witness :
    (fetch_all_active_markets 0 none [[c6Raw, c6Raw, c6Raw]] 3 (some 2)).length ≤ 2 - 1 + 3 :=
  C6_amended_fetch_all_bound 0 none [[c6Raw, c6Raw, c6Raw]] 3 2 (by omega) (by omega)

/-- Python str.lower(): lower-case every character. -/
def strLower (s : String) : String := String.mk (s.data.map Char.toLower)

/-- Whether needle occurs as a contiguous sublist of hay (the Python
substring test needle in hay, on the character lists). -/
def charListHasSub : List Char → List Char → Bool
  | needle, [] => needle.isEmpty
  | needle, c :: rest => needle.isPrefixOf (c :: rest) || charListHasSub needle rest

/-- Python substring containment needle in hay. -/
def strContainsSub (needle hay : String) : Bool :=
  charListHasSub needle.data hay.data

/-- The fixed deny-list of pool and AMM wallet addresses in
HolderFetcher.parse_holders. -/
def EXCLUDED_WALLETS : List String :=
  ["0x8bd6c3d7a57d650a1870dd338234f90051fe9918",
   "0x0000000000000000000000000000000000000000"]

/-- A raw holder row from the holders endpoint.  amount is none when
absent (Python h.get with default 0). -/
structure RawHolder where
  proxyWallet : String := ""
  address : String := ""
  pseudonym : Option String := none
  name : Option String := none
  amount : Option ℚ := none
deriving DecidableEq, Repr

/-- One per-token block in the holders endpoint response. -/
structure TokenHolderData where
  token : String := ""
  holders : List RawHolder := []
deriving DecidableEq, Repr

/-- Python (a or b) on plain strings: a unless it is empty. -/
def pyOrStringVal (a b : String) : String := if a = "" then b else a

/-- The per-row body of the parse_holders inner loop: pick the wallet
(proxyWallet or address), drop empty wallets, the deny-list, rows whose
display name contains polymarket or amm case-insensitively, and rows
with non-positive amount; otherwise build the MarketHolder. -/
def parseOneHolder (side : HolderSide) (h : RawHolder) : Option MarketHolder :=
  let wallet := pyOrStringVal h.proxyWallet h.address
  if wallet = "" then none
  else if strLower wallet ∈ EXCLUDED_WALLETS then none
  else
    let username := strLower ((pyOrStr h.pseudonym h.name).getD "")
    if strContainsSub "polymarket" username || strContainsSub "amm" username then none
    else
      let amount := h.amount.getD 0
      if amount ≤ 0 then none
      else
        some
          { wallet_address := wallet
            amount := amount
            side := side
            username := pyOrStr h.pseudonym h.name
            display_name := h.name }

/-- All rows of one token block that survive the filters. -/
def processHolders (side : HolderSide) (hs : List RawHolder) : List MarketHolder :=
  hs.filterMap (parseOneHolder side)

/-- One iteration of the outer loop of parse_holders: append the block's
surviving rows to the YES or NO accumulator according to the token id
(YES checked first), or skip the block. -/
def collectStep (token_id_yes token_id_no : String)
    (acc : List MarketHolder × List MarketHolder) (td : TokenHolderData) :
    List MarketHolder × List MarketHolder :=
  if td.token = token_id_yes then (acc.1 ++ processHolders HolderSide.YES td.holders, acc.2)
  else if td.token = token_id_no then (acc.1, acc.2 ++ processHolders HolderSide.NO td.holders)
  else acc

/-- The outer loop of parse_holders over the response blocks. -/
def collectHolders (token_id_yes token_id_no : String) (raw : List TokenHolderData) :
    List MarketHolder × List MarketHolder :=
  raw.foldl (collectStep token_id_yes token_id_no) ([], [])

/-- The comparison passed to the final descending stable sort of
parse_holders (sort key amount, reverse). -/
def holderDescBool (a b : MarketHolder) : Bool := decide (b.amount ≤ a.amount)

/-- HolderFetcher.parse_holders from src/fetchers/holder_fetcher.py:
collect per-token rows, sort both lists by amount descending, truncate
to top_n. -/
def parse_holders (raw : List TokenHolderData) (token_id_yes token_id_no : String)
    (top_n : Nat) : List MarketHolder × List MarketHolder :=
  let pair := collectHolders token_id_yes token_id_no raw
  ((pair.1.mergeSort holderDescBool).take top_n,
   (pair.2.mergeSort holderDescBool).take top_n)

/-- The limit parameter HolderFetcher.fetch_holders_for_market actually
sends to the holders endpoint: min(limit, 20), the external maximum. -/
def fetch_holders_request_limit (limit : Nat) : Nat := min limit 20

/-- The per-entry facts claim C7 states: strictly positive share amount,
wallet not on the deny-list, and no case-insensitive polymarket or amm
in the display name used by the filter. -/
def goodHolder (h : MarketHolder) : Prop :=
  0 < h.amount ∧ strLower h.wallet_address ∉ EXCLUDED_WALLETS ∧
    strContainsSub "polymarket" (strLower (h.username.getD "")) = false ∧
    strContainsSub "amm" (strLower (h.username.getD "")) = false

/-- The per-list facts claim C7 states: at most top_n entries, sorted by
amount descending, every entry good. -/
def goodHolderList (top_n : Nat) (l : List MarketHolder) : Prop :=
  l.length ≤ top_n ∧ l.Pairwise (fun a b => b.amount ≤ a.amount) ∧ ∀ h ∈ l, goodHolder h

/-- Any row parseOneHolder accepts satisfies the claim C7 per-entry
facts. -/
theorem parseOneHolder_good (side : HolderSide) (h : RawHolder) (mh : MarketHolder)
    (hf : parseOneHolder side h = some mh) : goodHolder mh := by
  simp only [parseOneHolder] at hf
  split_ifs at hf with h1 h2 h3 h4
  rw [Option.some_inj] at hf
  subst hf
  simp only [Bool.or_eq_true, not_or, Bool.not_eq_true] at h3
  exact ⟨lt_of_not_le h4, h2, h3.1, h3.2⟩

/-- Every element of a processed block satisfies the per-entry facts. -/
theorem processHolders_good (side : HolderSide) (hs : List RawHolder) :
    ∀ h ∈ processHolders side hs, goodHolder h := by
  intro h hm
  simp only [processHolders, List.mem_filterMap] at hm
  obtain ⟨a, _, hf⟩ := hm
  exact parseOneHolder_good side a h hf

/-- The collection loop only accumulates good entries. -/
theorem collectHolders_aux (token_id_yes token_id_no : String) :
    ∀ (raw : List TokenHolderData) (acc : List MarketHolder × List MarketHolder),
      (∀ h ∈ acc.1, goodHolder h) → (∀ h ∈ acc.2, goodHolder h) →
      (∀ h ∈ (raw.foldl (collectStep token_id_yes token_id_no) acc).1, goodHolder h) ∧
        (∀ h ∈ (raw.foldl (collectStep token_id_yes token_id_no) acc).2, goodHolder h) := by
  intro raw
  induction raw with
  | nil => exact fun acc h1 h2 => ⟨h1, h2⟩
  | cons td rest ih =>
    intro acc h1 h2
    rw [List.foldl_cons]
    refine ih _ ?_ ?_
    · intro h hm
      simp only [collectStep] at hm
      split_ifs at hm
      · rcases List.mem_append.mp hm with hm | hm
        · exact h1 h hm
        · exact processHolders_good _ _ h hm
      · exact h1 h hm
      · exact h1 h hm
    · intro h hm
      simp only [collectStep] at hm
      split_ifs at hm
      · exact h2 h hm
      · rcases List.mem_append.mp hm with hm | hm
        · exact h2 h hm
        · exact processHolders_good _ _ h hm
      · exact h2 h hm

/-- holderDescBool is transitive. -/
theorem holderDescBool_trans (a b c : MarketHolder) :
    holderDescBool a b → holderDescBool b c → holderDescBool a c := by
  simp only [holderDescBool, decide_eq_true_eq]
  intro h1 h2
  exact le_trans h2 h1

/-- holderDescBool is total. -/
theorem holderDescBool_total (a b : MarketHolder) :
    holderDescBool a b || holderDescBool b a := by
  simp only [holderDescBool, Bool.or_eq_true, decide_eq_true_eq]
  exact le_total b.amount a.amount

/-- Sorting a list of good entries and truncating gives a good list. -/
theorem sortTake_goodHolderList (top_n : Nat) (l : List MarketHolder)
    (hl : ∀ h ∈ l, goodHolder h) :
    goodHolderList top_n ((l.mergeSort holderDescBool).take top_n) := by
  refine ⟨?_, ?_, ?_⟩
  · rw [List.length_take]
    exact min_le_left _ _
  · have hs := List.sorted_mergeSort holderDescBool_trans holderDescBool_total l
    have hs2 : (l.mergeSort holderDescBool).Pairwise (fun a b => b.amount ≤ a.amount) :=
      hs.imp (fun hab => by simpa [holderDescBool] using hab)
    exact hs2.sublist (List.take_sublist _ _)
  · intro h hm
    exact hl h (List.mem_mergeSort.mp (List.mem_of_mem_take hm))

/-- Claim C7: for every raw holder response, both lists returned by
parse_holders contain only entries with strictly positive amount, no
deny-listed wallet and no polymarket or amm display name, are sorted by
amount descending and have length at most top_n; and the holders request
never asks the external API for more than 20 holders. -/
theorem C7_parse_holders_properties (raw : List TokenHolderData)
    (token_id_yes token_id_no : String) (top_n : Nat) :
    goodHolderList top_n (parse_holders raw token_id_yes token_id_no top_n).1 ∧
    goodHolderList top_n (parse_holders raw token_id_yes token_id_no top_n).2 ∧
    ∀ limit : Nat, fetch_holders_request_limit limit ≤ 20 := by
  have hgood := collectHolders_aux token_id_yes token_id_no raw ([], [])
    (by intro h hm; exact absurd hm (List.not_mem_nil h))
    (by intro h hm; exact absurd hm (List.not_mem_nil h))
  refine ⟨?_, ?_, ?_⟩
  · exact sortTake_goodHolderList top_n _ hgood.1
  · exact sortTake_goodHolderList top_n _ hgood.2
  · intro limit
    exact min_le_right _ _

/-- Witness for claim C7 at a concrete response: a single YES block with
one valid row yields good lists, and a configured limit of 100 is
clamped to at most 20. -/
theorem C7_witness :
    goodHolderList 20
      (parse_holders
        [{ token := "ty",
           holders := [{ proxyWallet := "0xabc", amount := some 5 }] }] "ty" "tn" 20).1 ∧
    fetch_holders_request_limit 100 ≤ 20 :=
  ⟨(C7_parse_holders_properties _ "ty" "tn" 20).1,
   (C7_parse_holders_properties [] "ty" "tn" 20).2.2 100⟩

/-- A winningOutcome JSON value: the code distinguishes strings (lower-
cased and compared against yes/true/1) from other values (plain Python
truthiness). -/
inductive PyWinning where
  | str : String → PyWinning
  | boolean : Bool → PyWinning
deriving DecidableEq, Repr

/-- Python truthiness of an optional integer: None and 0 are falsy. -/
def pyTruthyInt : Option Int → Bool
  | some n => decide (n ≠ 0)
  | none => false

/-- Python (a or b) on optional integers. -/
def pyOrInt (a b : Option Int) : Option Int :=
  if pyTruthyInt a then a else b

/-- A closed-market record as consumed by parse_resolution in
scripts/resolve_markets.py, after JSON decoding.  closedTime,
resolvedAt and closedAt model numeric timestamps in seconds; an
outcomePrices entry that float() cannot parse is none. -/
structure ResolutionRaw where
  closed : Bool := false
  resolved : Bool := false
  closedTime : Option Int := none
  winningOutcome : Option PyWinning := none
  outcomePrices : List (Option ℚ) := []
  resolvedAt : Option Int := none
  closedAt : Option Int := none
deriving DecidableEq, Repr

/-- The price-inference block of parse_resolution: with at least two
outcome prices, both parsable, the winner is Yes when the first price
strictly exceeds 0.95, else No when the second does, else undetermined;
a float() failure leaves the winner undetermined. -/
def inferredFromPrices (prices : List (Option ℚ)) : Option PyWinning :=
  if 2 ≤ prices.length then
    match prices.get? 0, prices.get? 1 with
    | some (some yes_price), some (some no_price) =>
      if 95/100 < yes_price then some (PyWinning.str "Yes")
      else if 95/100 < no_price then some (PyWinning.str "No")
      else none
    | _, _ => none
  else none

/-- The outcome normalization at the end of parse_resolution. -/
def normalizeOutcome : PyWinning → String
  | PyWinning.str s => if strLower s ∈ ["yes", "true", "1"] then "YES" else "NO"
  | PyWinning.boolean b => if b then "YES" else "NO"

/-- parse_resolution from scripts/resolve_markets.py.  now stands in
for datetime.now() in the timestamp fallback; a market that is not
closed, not resolved and has a falsy closedTime, or whose winner cannot
be determined, yields (none, none). -/
def parse_resolution (now : Int) (m : ResolutionRaw) : Option String × Option Int :=
  if !(m.closed || m.resolved || pyTruthyInt m.closedTime) then (none, none)
  else
    let winning_outcome :=
      match m.winningOutcome with
      | some w => some w
      | none => inferredFromPrices m.outcomePrices
    match winning_outcome with
    | none => (none, none)
    | some w =>
      let resolved_outcome := normalizeOutcome w
      let ra := pyOrInt m.closedTime (pyOrInt m.resolvedAt m.closedAt)
      let resolved_at : Int := if pyTruthyInt ra then ra.getD 0 else now
      (some resolved_outcome, some resolved_at)

/-- Claim C8: a closed market with outcome prices [0.97, 0.03] resolves
to YES; a closed market with prices [0.5, 0.5] is unresolved; a winner
is inferred from prices only when one of the first two prices strictly
exceeds 0.95; and a market that is not closed, not resolved and has no
close timestamp is always unresolved. -/
theorem C8_parse_resolution_cases (now : Int) (m : ResolutionRaw)
    (prices : List (Option ℚ)) (w : PyWinning) :
    (parse_resolution now
        { closed := true, outcomePrices := [some (97/100), some (3/100)] }).1 =
      some "YES" ∧
    parse_resolution now
        { closed := true, outcomePrices := [some (1/2), some (1/2)] } = (none, none) ∧
    (inferredFromPrices prices = some w →
      ∃ y n, prices.get? 0 = some (some y) ∧ prices.get? 1 = some (some n) ∧
        (95/100 < y ∨ 95/100 < n)) ∧
    (m.closed = false → m.resolved = false → m.closedTime = none →
      parse_resolution now m = (none, none)) := by
  refine ⟨?_, ?_, ?_, ?_⟩
  · have h1 : (95:ℚ)/100 < 97/100 := by norm_num
    simp [parse_resolution, inferredFromPrices, normalizeOutcome, pyTruthyInt,
      pyOrInt, h1, strLower]
  · norm_num [parse_resolution, inferredFromPrices, pyTruthyInt, pyOrInt]
  · intro hinf
    simp only [inferredFromPrices] at hinf
    by_cases hlen : 2 ≤ prices.length
    · rw [if_pos hlen] at hinf
      rcases hp0 : prices.get? 0 with _ | _ | y <;> rw [hp0] at hinf
      · exact Option.noConfusion hinf
      · exact Option.noConfusion hinf
      · rcases hp1 : prices.get? 1 with _ | _ | n <;> rw [hp1] at hinf
        · exact Option.noConfusion hinf
        · exact Option.noConfusion hinf
        · dsimp only at hinf
          refine ⟨y, n, rfl, rfl, ?_⟩
          split_ifs at hinf with hy hn
          · exact Or.inl hy
          · exact Or.inr hn
    · rw [if_neg hlen] at hinf
      exact Option.noConfusion hinf
  · intro h1 h2 h3
    simp [parse_resolution, pyTruthyInt, h1, h2, h3]

/-- Witness for claim C8 at concrete inputs: the default (not closed,
not resolved, no close timestamp) record is unresolved, and the closed
[0.97, 0.03] record resolves YES. -/
theorem C8_witness :
    parse_resolution 0 {} = (none, none) ∧
    (parse_resolution 0
        { closed := true, outcomePrices := [some (97/100), some (3/100)] }).1 =
      some "YES" :=
  ⟨(C8_parse_resolution_cases 0 {} [] (PyWinning.str "")).2.2.2 rfl rfl rfl,
   (C8_parse_resolution_cases 0 {} [] (PyWinning.str "")).1⟩

/-- A row of the backtest_snapshots table (src/db/schema.py), with the
columns create_backtest_snapshot inserts and update_backtest_resolution
reads and writes.  price_at_flag is nullable in the store, hence
Option. -/
structure BacktestSnapshotRow where
  id : Nat
  market_id : String
  scan_result_id : Option Int
  flagged_side : String
  edge_pct : ℚ
  price_at_flag : Option ℚ
  flagged_at : Int
  resolved_outcome : Option String := none
  resolved_at : Option Int := none
  predicted_correct : Option Int := none
  theoretical_pnl : Option ℚ := none
deriving DecidableEq, Repr

/-- The columns of the markets table update_backtest_resolution also
writes. -/
structure MarketRow where
  market_id : String
  resolved_outcome : Option String := none
  resolved_at : Option Int := none
deriving DecidableEq, Repr

/-- The persistent store as seen by the two backtest operations: the
snapshot rows in insertion order, the AUTOINCREMENT counter, and the
markets table. -/
structure ScannerDB where
  backtest_snapshots : List BacktestSnapshotRow := []
  next_snapshot_id : Nat := 1
  markets : List MarketRow := []
deriving DecidableEq, Repr

/-- The row predicate of WHERE market_id = ?. -/
def rowMatches (market_id : String) (r : BacktestSnapshotRow) : Bool :=
  decide (r.market_id = market_id)

/-- ScannerRepository.create_backtest_snapshot from src/db/repository.py:
return the existing snapshot id for the market if one exists (fetchone
on insertion order), otherwise insert a new row and return its rowid. -/
def create_backtest_snapshot (db : ScannerDB) (market_id : String)
    (scan_result_id : Option Int) (flagged_side : String) (edge_pct : ℚ)
    (price_at_flag : ℚ) (flagged_at : Int) : Nat × ScannerDB :=
  match db.backtest_snapshots.find? (rowMatches market_id) with
  | some existing => (existing.id, db)
  | none =>
    let row : BacktestSnapshotRow :=
      { id := db.next_snapshot_id
        market_id := market_id
        scan_result_id := scan_result_id
        flagged_side := flagged_side
        edge_pct := edge_pct
        price_at_flag := some price_at_flag
        flagged_at := flagged_at }
    (db.next_snapshot_id,
     { db with
        backtest_snapshots := db.backtest_snapshots ++ [row]
        next_snapshot_id := db.next_snapshot_id + 1 })

/-- ScannerRepository.update_backtest_resolution from
src/db/repository.py: read flagged_side and price_at_flag from the
market's snapshot (no-op when absent), compute predicted_correct and
the theoretical one-unit-stake payoff, and update the snapshot and
markets rows of that market. -/
def update_backtest_resolution (db : ScannerDB) (market_id : String)
    (resolved_outcome : String) (resolved_at : Int) : ScannerDB :=
  match db.backtest_snapshots.find? (rowMatches market_id) with
  | none => db
  | some snapshot =>
    let predicted_correct : Int := if snapshot.flagged_side = resolved_outcome then 1 else 0
    let theoretical_pnl : Option ℚ :=
      match snapshot.price_at_flag with
      | some p =>
        if 0 < p then
          if predicted_correct ≠ 0 then some (1/p - 1) else some (-1)
        else none
      | none => none
    { db with
        backtest_snapshots := db.backtest_snapshots.map (fun r =>
          if rowMatches market_id r then
            { r with
                resolved_outcome := some resolved_outcome
                resolved_at := some resolved_at
                predicted_correct := some predicted_correct
                theoretical_pnl := theoretical_pnl }
          else r)
        markets := db.markets.map (fun r =>
          if r.market_id = market_id then
            { r with resolved_outcome := some resolved_outcome, resolved_at := some resolved_at }
          else r) }

/-- find? on an appended list looks at the second part only when the
first has no match. -/
theorem find?_append_none {α : Type} (p : α → Bool) (l1 l2 : List α)
    (h : l1.find? p = none) : (l1 ++ l2).find? p = l2.find? p := by
  rw [List.find?_append, h, Option.none_or]

/-- Claim C9: a second create_backtest_snapshot call for the same market
id returns the id of the existing record and leaves the store untouched,
regardless of the second call's other arguments. -/
theorem C9_create_backtest_snapshot_idempotent (db : ScannerDB) (market_id : String)
    (s1 s2 : Option Int) (f1 f2 : String) (e1 e2 : ℚ) (p1 p2 : ℚ) (t1 t2 : Int) :
    ((create_backtest_snapshot
        (create_backtest_snapshot db market_id s1 f1 e1 p1 t1).2
        market_id s2 f2 e2 p2 t2).1 =
      (create_backtest_snapshot db market_id s1 f1 e1 p1 t1).1) ∧
    ((create_backtest_snapshot
        (create_backtest_snapshot db market_id s1 f1 e1 p1 t1).2
        market_id s2 f2 e2 p2 t2).2 =
      (create_backtest_snapshot db market_id s1 f1 e1 p1 t1).2) := by
  rcases hfind : db.backtest_snapshots.find? (rowMatches market_id) with _ | existing
  · have hnew : (db.backtest_snapshots ++
        [({ id := db.next_snapshot_id, market_id := market_id, scan_result_id := s1,
            flagged_side := f1, edge_pct := e1, price_at_flag := some p1,
            flagged_at := t1 } : BacktestSnapshotRow)]).find? (rowMatches market_id) =
        some
          { id := db.next_snapshot_id, market_id := market_id, scan_result_id := s1,
            flagged_side := f1, edge_pct := e1, price_at_flag := some p1,
            flagged_at := t1 } := by
      rw [find?_append_none _ _ _ hfind]
      simp [List.find?, rowMatches]
    constructor
    · simp only [create_backtest_snapshot, hfind, hnew]
    · simp only [create_backtest_snapshot, hfind, hnew]
  · constructor
    · simp only [create_backtest_snapshot, hfind]
    · simp only [create_backtest_snapshot, hfind]

/-- find? commutes with a map that preserves the predicate. -/
theorem find?_map_preserving {α : Type} (p : α → Bool) (f : α → α)
    (hp : ∀ x, p (f x) = p x) :
    ∀ (l : List α) (r : α), l.find? p = some r → (l.map f).find? p = some (f r) := by
  intro l
  induction l with
  | nil => intro r hr; exact Option.noConfusion hr
  | cons a t ih =>
    intro r hr
    rw [List.find?_cons] at hr
    rw [List.map_cons, List.find?_cons]
    rcases hpa : p a with _ | _
    · rw [hpa] at hr
      rw [hp a, hpa]
      exact ih r hr
    · rw [hpa] at hr
      rw [Option.some_inj] at hr
      cases hr
      simp [hp a, hpa]

/-- Claim C10: when update_backtest_resolution runs for a market with an
existing snapshot, the market's snapshot row afterwards carries the
resolution, predicted_correct = 1 exactly when the flagged side equals
the resolved outcome (else 0), and the one-unit-stake payoff
1 / price_at_flag - 1 on a correct prediction, -1 on an incorrect one,
and no payoff at all when price_at_flag is absent or not strictly
positive. -/
theorem C10_update_backtest_resolution (db : ScannerDB) (market_id : String)
    (resolved_outcome : String) (resolved_at : Int) (r : BacktestSnapshotRow)
    (hfind : db.backtest_snapshots.find? (rowMatches market_id) = some r) :
    (update_backtest_resolution db market_id resolved_outcome resolved_at).backtest_snapshots.find?
        (rowMatches market_id) =
      some
        { r with
            resolved_outcome := some resolved_outcome
            resolved_at := some resolved_at
            predicted_correct := some (if r.flagged_side = resolved_outcome then 1 else 0)
            theoretical_pnl :=
              match r.price_at_flag with
              | some p =>
                if 0 < p then
                  if r.flagged_side = resolved_outcome then some (1/p - 1) else some (-1)
                else none
              | none => none } := by
  have hpr : rowMatches market_id r = true := List.find?_some hfind
  simp only [update_backtest_resolution, hfind]
  have hmap := find?_map_preserving (rowMatches market_id)
    (fun x =>
      if rowMatches market_id x then
        { x with
            resolved_outcome := some resolved_outcome
            resolved_at := some resolved_at
            predicted_correct :=
              some (if r.flagged_side = resolved_outcome then (1:Int) else 0)
            theoretical_pnl :=
              match r.price_at_flag with
              | some p =>
                if 0 < p then
                  if (if r.flagged_side = resolved_outcome then (1:Int) else 0) ≠ 0 then
                    some (1/p - 1)
                  else some (-1)
                else none
              | none => none }
      else x)
    (fun x => by
      rcases hx : rowMatches market_id x with _ | _
      · simp [hx]
      · simp only [hx, if_true, ite_true]
        simp [rowMatches] at hx ⊢
        exact hx)
    db.backtest_snapshots r hfind
  dsimp only at hmap
  rw [hpr] at hmap
  simp only [if_true, ite_true] at hmap
  rw [hmap]
  congr 1
  by_cases heq : r.flagged_side = resolved_outcome
  · simp [heq]
  · simp [heq]

/-- Witness for claim C10 at a concrete store: one snapshot flagged YES
at price 0.5; recording a YES resolution marks it correct with payoff
1 / 0.5 - 1 = 1. -/
theorem C10_witness :
    (update_backtest_resolution
        { backtest_snapshots :=
            [{ id := 1, market_id := "m1", scan_result_id := none, flagged_side := "YES",
               edge_pct := 1/4, price_at_flag := some (1/2), flagged_at := 7 }]
          next_snapshot_id := 2 }
        "m1" "YES" 9).backtest_snapshots.find? (rowMatches "m1") =
      some
        { id := 1, market_id := "m1", scan_result_id := none, flagged_side := "YES",
          edge_pct := 1/4, price_at_flag := some (1/2), flagged_at := 7,
          resolved_outcome := some "YES", resolved_at := some 9,
          predicted_correct := some 1, theoretical_pnl := some (1/(1/2) - 1) } := by
  have h := C10_update_backtest_resolution
    { backtest_snapshots :=
        [{ id := 1, market_id := "m1", scan_result_id := none, flagged_side := "YES",
           edge_pct := 1/4, price_at_flag := some (1/2), flagged_at := 7 }]
      next_snapshot_id := 2 }
    "m1" "YES" 9
    { id := 1, market_id := "m1", scan_result_id := none, flagged_side := "YES",
      edge_pct := 1/4, price_at_flag := some (1/2), flagged_at := 7 }
    (by simp [List.find?, rowMatches])
  simpa using h

end PolyScanner
